import Mathlib

/-!
Shallow embedding of the `bda-usecases` repository's logic:

* `src/lambda/handler.py` — `process_with_retry` (exponential-backoff retry
  around a submit+poll cycle) and `lambda_handler` (per-record S3-event
  processing with isolated failures).
* `src/lambda/bda_parser/bda_client.py` — `BDAResumeParser.wait_for_completion`
  (fixed-interval completion polling with a wall-clock budget) and
  `BDAResumeParser.download_results` (result-location rewrite).
* `src/cli/promote_blueprint.py` — `promote_to_live` (idempotent stage
  promotion).

External effects (the boto3 clients, the wall clock, `time.sleep`) are
embedded by explicit parameters: the service's behaviour on the k-th call is
a function of k, performed sleeps are returned as a trace, and elapsed wall
time during polling is `10 * (number of polls so far)` seconds (status
queries themselves are treated as instantaneous, which is the idealization
the polling loop's comment and the spec both use).
-/

namespace BDA

/-- A raised Python exception, as observed by the handler code: either a
generic exception carrying its message, or the `TimeoutError` raised by
`wait_for_completion` (which carries the budget used to format its
message). -/
inductive PyError where
  | exc (msg : String)
  | timeout (maxWait : Nat)
deriving DecidableEq, Repr

/-- `str(e)` on an embedded exception. For the timeout this is the message
built at `bda_client.py:117`. -/
def PyError.str : PyError → String
  | .exc m => m
  | .timeout w => "Processing did not complete within " ++ toString w ++ " seconds"

instance {ε α : Type} [DecidableEq ε] [DecidableEq α] : DecidableEq (Except ε α) := fun x y =>
  match x, y with
  | .ok a, .ok b =>
    if h : a = b then .isTrue (by rw [h]) else .isFalse fun hc => h (by injection hc)
  | .ok _, .error _ => .isFalse fun hc => Except.noConfusion hc
  | .error _, .ok _ => .isFalse fun hc => Except.noConfusion hc
  | .error e, .error f =>
    if h : e = f then .isTrue (by rw [h]) else .isFalse fun hc => h (by injection hc)

/-- The fields of a `get_data_automation_status` response that the code
reads: `status`, `errorMessage` (optional), and
`outputConfiguration.s3Uri` (optional). -/
structure StatusResponse where
  status : String
  errorMessage : Option String
  outputS3Uri : Option String
deriving DecidableEq, Repr

/-! ## `BDAResumeParser.wait_for_completion` (bda_client.py:99-117)

The Python loop runs `while time.time() - start_time < max_wait_time`,
querying status and sleeping 10 s after each non-terminal response.  With
instantaneous queries, the k-th status query (k = 0, 1, ...) happens at
elapsed time `10 * k`; the loop guard at that point is
`10 * k < max_wait_time`.  `statusFn k` is the outcome of the k-th
`check_status` call (which may itself raise, `bda_client.py:95-97`). -/

/-- State of `wait_for_completion` after `k` polls have already happened. -/
def wait_from (statusFn : Nat → Except PyError StatusResponse)
    (maxWait : Nat) (k : Nat) : Except PyError StatusResponse :=
  if _h : 10 * k < maxWait then
    match statusFn k with
    | .error e => .error e
    | .ok st =>
      if st.status = "Success" then .ok st
      else if st.status = "ServiceError" ∨ st.status = "ClientError" then .ok st
      else wait_from statusFn maxWait (k + 1)
  else .error (.timeout maxWait)
termination_by maxWait - 10 * k
decreasing_by omega

/-- `BDAResumeParser.wait_for_completion(invocation_arn, max_wait_time=300)`.
Returns the first terminal status response, propagates a `check_status`
exception, or raises `TimeoutError` once the budget is exhausted. -/
def wait_for_completion (statusFn : Nat → Except PyError StatusResponse)
    (maxWait : Nat := 300) : Except PyError StatusResponse :=
  wait_from statusFn maxWait 0

/-- A status response is terminal exactly when the polling loop would stop
and return it: `Success`, `ServiceError` or `ClientError`
(bda_client.py:107-112). -/
def isTerminalStatus (st : StatusResponse) : Bool :=
  st.status = "Success" ∨ st.status = "ServiceError" ∨ st.status = "ClientError"

/-! ## `process_with_retry` (handler.py:11-32)

One attempt of the `try:` body is a submit+poll cycle producing either an
exception or `(invocation_arn, status)`.  `cycle attempt` is the outcome of
the attempt with zero-based index `attempt` (the external service may behave
differently on each attempt).  The result pairs the Python return/raise
outcome with the trace of `time.sleep` durations performed, in order.
`none` is the `None` Python returns when the `for` loop body never runs
(only possible for `max_retries = 0`). -/

/-- The retry loop from the iteration with zero-based index `attempt`
onwards, with `remaining = max_retries - attempt` iterations left.  The
guard `attempt == max_retries - 1` of handler.py:27 is `remaining = 1`. -/
def process_with_retry_from (cycle : Nat → Except PyError (String × StatusResponse))
    (attempt : Nat) :
    Nat → Option (Except PyError (String × StatusResponse)) × List Nat
  | 0 => (none, [])
  | remaining + 1 =>
    match cycle attempt with
    | .ok v => (some (.ok v), [])
    | .error e =>
      if remaining = 0 then (some (.error e), [])
      else
        let rest := process_with_retry_from cycle (attempt + 1) remaining
        (rest.1, 2 ^ attempt :: rest.2)

/-- `process_with_retry(bda_client, input_s3_uri, output_s3_uri,
blueprint_arn, max_retries=3)`: retry the submit+poll cycle up to
`max_retries` times, sleeping `2 ^ attempt` seconds after each failed
non-final attempt, re-raising the final attempt's exception. -/
def process_with_retry (cycle : Nat → Except PyError (String × StatusResponse))
    (max_retries : Nat := 3) :
    Option (Except PyError (String × StatusResponse)) × List Nat :=
  process_with_retry_from cycle 0 max_retries

/-- The body of one `try:` block of `process_with_retry` (handler.py:15-24),
built from the injected `bda_client` capabilities: `submit attempt` is the
outcome of `bda_client.process_resume` on that attempt, and
`statusOf arn k` is the outcome of the k-th `check_status` poll for job
`arn`.  A raise at either step aborts the attempt with that exception. -/
def attempt_cycle (submit : Nat → Except PyError String)
    (statusOf : String → Nat → Except PyError StatusResponse)
    (attempt : Nat) : Except PyError (String × StatusResponse) :=
  match submit attempt with
  | .error e => .error e
  | .ok invocation_arn =>
    match wait_for_completion (statusOf invocation_arn) with
    | .error e => .error e
    | .ok status => .ok (invocation_arn, status)

/-! ## `lambda_handler` (handler.py:35-90)

One S3 event record, after the `unquote_plus` URL-decoding of
handler.py:50 (the key below is the already-decoded string; the claims
quantify over decoded keys, so the percent-decoding itself stays at the
boundary of the embedding). -/

structure S3Record where
  bucket : String
  key : String
deriving DecidableEq, Repr

/-- One entry of the `results` list built by `lambda_handler`: either the
success dict of handler.py:70-75 or the error dict of handler.py:79-82. -/
inductive RecordResult where
  | success (input_file output_path status invocation_arn : String)
  | failure (input_file error : String)
deriving DecidableEq, Repr

/-- The value `lambda_handler` returns (handler.py:84-90):
`statusCode` and the body's `processed_files` count and `results` list. -/
structure HandlerResponse where
  statusCode : Nat
  processed_files : Nat
  results : List RecordResult
deriving DecidableEq, Repr

/-- Python `s.startswith(pre)`: `pre` is a prefix of `s`. -/
def pyStartsWith (s pre : String) : Bool :=
  pre.data.isPrefixOf s.data

/-- Python `str.split(sep)` for a single-character separator (the only kind
the code uses: `'/'` and `'.'`), on the character list: every occurrence of
`sep` is a split point, empty pieces are kept, and splitting the empty
string yields `[""]`. -/
def pySplitChar (sep : Char) : List Char → List (List Char)
  | [] => [[]]
  | c :: rest =>
    if c = sep then [] :: pySplitChar sep rest
    else
      match pySplitChar sep rest with
      | [] => [[c]]
      | piece :: pieces => (c :: piece) :: pieces

/-- Python `s.split(sep)` for a single-character separator. -/
def pySplit (s : String) (sep : Char) : List String :=
  (pySplitChar sep s.data).map String.mk

/-- `filename = s3_key.split('/')[-1].split('.')[0]` (handler.py:59).
Python `str.split(sep)` never returns an empty list, so the `[-1]`/`[0]`
indexings are the total last/head with an (unused) default. -/
def record_filename (s3_key : String) : String :=
  (pySplit ((pySplit s3_key '/').getLastD "") '.').headD ""

/-- `output_key = f"output/{filename}/"` (handler.py:60). -/
def output_key (s3_key : String) : String :=
  "output/" ++ record_filename s3_key ++ "/"

/-- `input_s3_uri = f"s3://{s3_bucket}/{s3_key}"` (handler.py:63). -/
def input_s3_uri (s3_bucket s3_key : String) : String :=
  "s3://" ++ s3_bucket ++ "/" ++ s3_key

/-- `output_s3_uri = f"s3://{s3_bucket}/{output_key}job_metadata.json"`
(handler.py:64). -/
def output_s3_uri (s3_bucket s3_key : String) : String :=
  "s3://" ++ s3_bucket ++ "/" ++ output_key s3_key ++ "job_metadata.json"

/-- The per-record body of the `for record in event['Records']` loop
(handler.py:47-82), with the `bda_client` embedded as capabilities:
`submit in_uri out_uri attempt` is the outcome of
`bda_client.process_resume` for those URIs on the given attempt, and
`statusOf arn k` the outcome of the k-th status poll for job `arn`.
`none` means the record was skipped by the `input/` prefix filter
(handler.py:53-54); otherwise the record contributes one entry to
`results`, an error entry when `process_with_retry` raised.  (The `none`
branch of the retry result — Python returning `None` — is impossible for
`max_retries = 3`; Python would raise a `TypeError` unpacking it, caught by
the same `except`, hence the error entry.) -/
def process_record (submit : String → String → Nat → Except PyError String)
    (statusOf : String → Nat → Except PyError StatusResponse)
    (r : S3Record) : Option RecordResult :=
  if pyStartsWith r.key "input/" then
    match process_with_retry
        (attempt_cycle (submit (input_s3_uri r.bucket r.key) (output_s3_uri r.bucket r.key))
          statusOf) 3 with
    | (some (.ok (invocation_arn, status)), _) =>
      some (.success r.key (output_key r.key) status.status invocation_arn)
    | (some (.error e), _) => some (.failure r.key e.str)
    | (none, _) =>
      some (.failure r.key "cannot unpack non-iterable NoneType object")
  else none

/-- `lambda_handler(event, context)` (handler.py:35-90): process each record
in order, isolating per-record failures into `results`, and return the
`statusCode: 200` summary unconditionally. -/
def lambda_handler (submit : String → String → Nat → Except PyError String)
    (statusOf : String → Nat → Except PyError StatusResponse)
    (records : List S3Record) : HandlerResponse :=
  let results := records.filterMap (process_record submit statusOf)
  { statusCode := 200, processed_files := results.length, results := results }

/-! ## `promote_to_live` (promote_blueprint.py:54-93) -/

/-- The fields of a `get_blueprint` response's `blueprint` dict that
`promote_to_live` reads.  `blueprintStage` is read with
`.get(..., "DEVELOPMENT")` (a default when absent); `schema` with
`blueprint["schema"]` (a `KeyError` when absent, caught by the outer
`except` and turned into `sys.exit(1)`). -/
structure BlueprintInfo where
  blueprintStage : Option String
  schema : Option String
deriving DecidableEq, Repr

/-- One call to the mutating `update_blueprint` API, with exactly the three
arguments the code passes (promote_blueprint.py:78-82): no other field of
the blueprint is sent. -/
structure UpdateCall where
  blueprintArn : String
  blueprintStage : String
  schema : String
deriving DecidableEq, Repr

/-- `promote_to_live(blueprint_arn, project_arn, region)`: `fetch` is the
outcome of `client.get_blueprint` (an exception or the `blueprint` dict),
`update c` the outcome of `client.update_blueprint` when called with `c`.
Returns the process exit code (0 = the function returned normally and the
script exits cleanly; 1 = `sys.exit(1)` from the `except` block) together
with the trace of mutating `update_blueprint` calls issued, in order. -/
def promote_to_live (fetch : Except String BlueprintInfo)
    (update : UpdateCall → Except String Unit)
    (blueprint_arn : String) : Nat × List UpdateCall :=
  match fetch with
  | .error _ => (1, [])
  | .ok blueprint =>
    let current_stage := blueprint.blueprintStage.getD "DEVELOPMENT"
    if current_stage = "LIVE" then (0, [])
    else
      match blueprint.schema with
      | none => (1, [])
      | some schema =>
        let call : UpdateCall :=
          { blueprintArn := blueprint_arn, blueprintStage := "LIVE", schema := schema }
        match update call with
        | .ok _ => (0, [call])
        | .error _ => (1, [call])

/-! ## `BDAResumeParser.download_results` (bda_client.py:119-131)

The result-file location is derived from the status response's output
location by `output_s3_uri.replace('job_metadata.json',
'0/custom_output/0/result.json')`.  Python `str.replace(old, new)` replaces
every occurrence of `old`, scanning left to right, non-overlapping; we embed
it on the character list of the string. -/

/-- Python `str.replace` on character lists for a non-empty pattern `pat`:
scan left to right; at each position, if `pat` matches, emit `rep` and skip
past the match, else keep the character. -/
def pyReplaceL (pat rep : List Char) : List Char → List Char
  | [] => []
  | c :: rest =>
    if pat ≠ [] ∧ pat.isPrefixOf (c :: rest) then
      rep ++ pyReplaceL pat rep (rest.drop (pat.length - 1))
    else c :: pyReplaceL pat rep rest
termination_by s => s.length
decreasing_by
  · simp only [List.length_drop, List.length_cons]; omega
  · simp

/-- Python `s.replace(pat, rep)`.  For an empty pattern Python inserts `rep`
before every character and at the end (`'ab'.replace('', 'X') = 'XaXbX'`);
otherwise it is the left-to-right non-overlapping replacement. -/
def pyReplace (s pat rep : String) : String :=
  if pat = "" then
    ⟨rep.data ++ (s.data.map fun c => c :: rep.data).flatten⟩
  else ⟨pyReplaceL pat.data rep.data s.data⟩

/-- `result_s3_uri = output_s3_uri.replace('job_metadata.json',
'0/custom_output/0/result.json')` (bda_client.py:130), the result-location
derivation of `download_results`. -/
def result_s3_uri (output_uri : String) : String :=
  pyReplace output_uri "job_metadata.json" "0/custom_output/0/result.json"

/-! ## Helper lemmas about the retry loop -/

/-- Splitting off the first of `k + 1` backoff waits starting at attempt `a`. -/
theorem waits_range_succ (a k : Nat) :
    (List.range (k + 1)).map (fun j => 2 ^ (a + j)) =
      2 ^ a :: (List.range k).map fun j => 2 ^ (a + 1 + j) := by
  rw [List.range_succ_eq_map, List.map_cons, List.map_map]
  congr 1
  refine List.map_congr_left fun j _ => ?_
  simp only [Function.comp_apply]
  congr 1
  omega

/-- If the cycle fails on the first `k` attempts from `attempt` on and
succeeds on attempt `attempt + k` (with `k` within the remaining budget),
the loop returns that success and sleeps after each of the `k` failures. -/
theorem process_with_retry_from_ok
    (cycle : Nat → Except PyError (String × StatusResponse))
    (k : Nat) :
    ∀ attempt remaining, k < remaining →
      (∀ j, j < k → ∃ e, cycle (attempt + j) = .error e) →
      ∀ v, cycle (attempt + k) = .ok v →
        process_with_retry_from cycle attempt remaining =
          (some (.ok v), (List.range k).map fun j => 2 ^ (attempt + j)) := by
  induction k with
  | zero =>
    intro attempt remaining hk herr v hok
    obtain ⟨r, rfl⟩ : ∃ r, remaining = r + 1 := ⟨remaining - 1, by omega⟩
    rw [Nat.add_zero] at hok
    simp [process_with_retry_from, hok]
  | succ k ih =>
    intro attempt remaining hk herr v hok
    obtain ⟨r, rfl⟩ : ∃ r, remaining = r + 1 := ⟨remaining - 1, by omega⟩
    obtain ⟨e, he⟩ := herr 0 (by omega)
    rw [Nat.add_zero] at he
    have hr : r ≠ 0 := by omega
    have hrec := ih (attempt + 1) r (by omega)
      (fun j hj => by
        obtain ⟨e', he'⟩ := herr (j + 1) (by omega)
        exact ⟨e', by rw [show attempt + 1 + j = attempt + (j + 1) by omega]; exact he'⟩)
      v (by rw [show attempt + 1 + k = attempt + (k + 1) by omega]; exact hok)
    simp only [process_with_retry_from, he, hr, if_neg, ite_false, hrec]
    rw [waits_range_succ]

/-- If the cycle fails on every one of the `remaining ≥ 1` attempts from
`attempt` on, the loop re-raises the final attempt's exception and sleeps
after each non-final failure. -/
theorem process_with_retry_from_err
    (cycle : Nat → Except PyError (String × StatusResponse))
    (errAt : Nat → PyError) :
    ∀ remaining attempt, 1 ≤ remaining →
      (∀ j, j < remaining → cycle (attempt + j) = .error (errAt (attempt + j))) →
      process_with_retry_from cycle attempt remaining =
        (some (.error (errAt (attempt + remaining - 1))),
          (List.range (remaining - 1)).map fun j => 2 ^ (attempt + j)) := by
  intro remaining
  induction remaining with
  | zero => intro attempt h; omega
  | succ r ih =>
    intro attempt _ herr
    have he := herr 0 (by omega)
    rw [Nat.add_zero] at he
    by_cases hr : r = 0
    · subst hr
      simp [process_with_retry_from, he]
    · have hrec := ih (attempt + 1) (by omega)
        (fun j hj => by
          rw [show attempt + 1 + j = attempt + (j + 1) by omega]
          exact herr (j + 1) (by omega))
      simp only [process_with_retry_from, he, hr, if_neg, ite_false, hrec]
      rw [show attempt + 1 + r - 1 = attempt + (r + 1) - 1 by omega]
      obtain ⟨r', rfl⟩ : ∃ r', r = r' + 1 := ⟨r - 1, by omega⟩
      simp only [Nat.add_sub_cancel]
      rw [waits_range_succ]

/-- A cycle that succeeds on its first attempt makes the retry wrapper
return immediately with no sleeps, for any positive attempt budget. -/
theorem process_with_retry_first_ok
    (cycle : Nat → Except PyError (String × StatusResponse))
    (v : String × StatusResponse) (N : Nat) (hN : 1 ≤ N)
    (hok : cycle 0 = .ok v) :
    process_with_retry cycle N = (some (.ok v), []) := by
  have := process_with_retry_from_ok cycle 0 0 N (by omega)
    (fun j hj => by omega) v (by simpa using hok)
  simpa [process_with_retry] using this

/-- **C1.** For every attempt limit `N ≥ 1`, a submission+completion cycle
that raises on the first `N - 1` attempts and succeeds on the `N`-th
returns the success result (job handle and final status) and performs
exactly `N - 1` backoff waits of `2^0, 2^1, ..., 2^(N-2)` seconds, in that
order. -/
theorem retry_succeeds_on_final_attempt
    (cycle : Nat → Except PyError (String × StatusResponse))
    (N : Nat) (v : String × StatusResponse) (hN : 1 ≤ N)
    (herr : ∀ j, j < N - 1 → ∃ e, cycle j = .error e)
    (hok : cycle (N - 1) = .ok v) :
    process_with_retry cycle N =
      (some (.ok v), (List.range (N - 1)).map fun j => 2 ^ j) := by
  have := process_with_retry_from_ok cycle (N - 1) 0 N (by omega)
    (fun j hj => by simpa using herr j hj) v (by simpa using hok)
  simpa [process_with_retry] using this

/-- Witness for C1 at `N = 3`: two failures then a success yield the
success result after waits of exactly 1 s and 2 s. -/
theorem retry_succeeds_on_final_attempt_witness :
    process_with_retry
      (fun att => match att with
        | 0 => .error (.exc "boom0")
        | 1 => .error (.exc "boom1")
        | _ => .ok ("arn:job", ⟨"Success", none, none⟩)) 3 =
      (some (.ok ("arn:job", ⟨"Success", none, none⟩)), [1, 2]) := by
  have := retry_succeeds_on_final_attempt
    (fun att => match att with
      | 0 => .error (.exc "boom0")
      | 1 => .error (.exc "boom1")
      | _ => .ok ("arn:job", ⟨"Success", none, none⟩))
    3 ("arn:job", ⟨"Success", none, none⟩) (by omega)
    (fun j hj => by
      interval_cases j
      · exact ⟨.exc "boom0", rfl⟩
      · exact ⟨.exc "boom1", rfl⟩)
    rfl
  simpa using this

/-- **C2.** For every attempt limit `N ≥ 1`, a submission+completion cycle
that raises on every attempt makes the wrapper re-raise the final (`N`-th)
attempt's exception, after exactly `N - 1` backoff waits — none after the
final failure. -/
theorem retry_propagates_final_error
    (cycle : Nat → Except PyError (String × StatusResponse))
    (errAt : Nat → PyError) (N : Nat) (hN : 1 ≤ N)
    (herr : ∀ j, j < N → cycle j = .error (errAt j)) :
    process_with_retry cycle N =
      (some (.error (errAt (N - 1))), (List.range (N - 1)).map fun j => 2 ^ j) := by
  have := process_with_retry_from_err cycle errAt N 0 hN
    (fun j hj => by simpa using herr j hj)
  simpa [process_with_retry] using this

/-- Witness for C2 at `N = 3`: three failures re-raise the last exception
after waits of exactly 1 s and 2 s. -/
theorem retry_propagates_final_error_witness :
    process_with_retry (fun att => .error (.exc (toString att))) 3 =
      (some (.error (.exc "2")), [1, 2]) := by
  have := retry_propagates_final_error
    (fun att => .error (.exc (toString att)))
    (fun att => .exc (toString att)) 3 (by omega) (fun j _ => rfl)
  simpa using this

/-! ## Helper lemmas about the polling loop -/

/-- A poll within budget that returns a terminal status stops the loop and
returns that response. -/
theorem wait_from_ok_terminal (statusFn : Nat → Except PyError StatusResponse)
    (maxWait k : Nat) (st : StatusResponse) (hlt : 10 * k < maxWait)
    (hst : statusFn k = .ok st) (hterm : isTerminalStatus st = true) :
    wait_from statusFn maxWait k = .ok st := by
  rw [wait_from]
  simp only [isTerminalStatus, decide_eq_true_eq] at hterm
  rcases hterm with h | h | h <;> simp [hlt, hst, h]

/-- A poll within budget that returns a non-terminal status advances the
loop to the next poll. -/
theorem wait_from_step (statusFn : Nat → Except PyError StatusResponse)
    (maxWait k : Nat) (st : StatusResponse) (hlt : 10 * k < maxWait)
    (hst : statusFn k = .ok st) (hnt : isTerminalStatus st = false) :
    wait_from statusFn maxWait k = wait_from statusFn maxWait (k + 1) := by
  rw [wait_from]
  simp only [isTerminalStatus, decide_eq_false_iff_not, not_or] at hnt
  obtain ⟨h1, h2, h3⟩ := hnt
  simp [hlt, hst, h1, h2, h3]

/-- If every poll within the budget comes back non-terminal (and without
raising), the loop exhausts the budget and raises the timeout. -/
theorem wait_from_timeout (statusFn : Nat → Except PyError StatusResponse)
    (maxWait : Nat)
    (h : ∀ k, 10 * k < maxWait → ∃ st, statusFn k = .ok st ∧ isTerminalStatus st = false)
    (i : Nat) : wait_from statusFn maxWait i = .error (.timeout maxWait) := by
  by_cases hlt : 10 * i < maxWait
  · obtain ⟨st, hst, hnt⟩ := h i hlt
    rw [wait_from_step statusFn maxWait i st hlt hst hnt]
    exact wait_from_timeout statusFn maxWait h (i + 1)
  · rw [wait_from]
    simp [hlt]
termination_by maxWait - 10 * i
decreasing_by omega

/-- Running the loop from poll `i` reaches the first terminal poll `k ≥ i`
and returns its response, provided `k` is within budget and every poll
between `i` and `k` is non-terminal. -/
theorem wait_from_of_first_terminal (statusFn : Nat → Except PyError StatusResponse)
    (maxWait k : Nat) (st : StatusResponse) (hlt : 10 * k < maxWait)
    (hst : statusFn k = .ok st) (hterm : isTerminalStatus st = true) :
    ∀ i, i ≤ k →
      (∀ j, i ≤ j → j < k → ∃ st', statusFn j = .ok st' ∧ isTerminalStatus st' = false) →
      wait_from statusFn maxWait i = .ok st := by
  have main : ∀ d i, k - i = d → i ≤ k →
      (∀ j, i ≤ j → j < k → ∃ st', statusFn j = .ok st' ∧ isTerminalStatus st' = false) →
      wait_from statusFn maxWait i = .ok st := by
    intro d
    induction d with
    | zero =>
      intro i hd hik _
      have : i = k := by omega
      subst this
      exact wait_from_ok_terminal statusFn maxWait i st hlt hst hterm
    | succ d ih =>
      intro i hd hik hbef
      obtain ⟨st', hst', hnt⟩ := hbef i le_rfl (by omega)
      rw [wait_from_step statusFn maxWait i st' (by omega) hst' hnt]
      exact ih (i + 1) (by omega) (by omega) fun j hj1 hj2 => hbef j (by omega) hj2
  exact fun i hik hbef => main (k - i) i rfl hik hbef

/-- **C3.** The completion poller queries status at fixed 10-second
intervals (the `k`-th query at elapsed time `10 k`).  It returns the status
response of the first terminal poll (`Success`, `ServiceError` or
`ClientError`) that happens within the wait budget, and when the budget is
exhausted with no terminal status it raises a `TimeoutError` carrying the
budget — an exception, distinct from any returned failed-status response. -/
theorem wait_for_completion_spec (statusFn : Nat → Except PyError StatusResponse)
    (maxWait : Nat) :
    (∀ k st, 10 * k < maxWait → statusFn k = .ok st → isTerminalStatus st = true →
      (∀ j, j < k → ∃ st', statusFn j = .ok st' ∧ isTerminalStatus st' = false) →
      wait_for_completion statusFn maxWait = .ok st) ∧
    ((∀ k, 10 * k < maxWait → ∃ st, statusFn k = .ok st ∧ isTerminalStatus st = false) →
      wait_for_completion statusFn maxWait = .error (.timeout maxWait) ∧
        ∀ st : StatusResponse,
          (Except.error (PyError.timeout maxWait) : Except PyError StatusResponse) ≠ .ok st) := by
  constructor
  · intro k st hlt hst hterm hbef
    exact wait_from_of_first_terminal statusFn maxWait k st hlt hst hterm 0 (by omega)
      fun j _ hj => hbef j hj
  · intro h
    exact ⟨wait_from_timeout statusFn maxWait h 0, fun st hc => Except.noConfusion hc⟩

/-- Witness for C3, both branches at the default budget 300: a job that is
`InProgress` for two polls and then `ServiceError` returns the failed
status (not an exception); a job that never leaves `InProgress` within a
25-second budget raises the timeout. -/
theorem wait_for_completion_spec_witness :
    wait_for_completion
      (fun k => if k < 2 then .ok ⟨"InProgress", none, none⟩
        else .ok ⟨"ServiceError", some "boom", none⟩) 300 =
      .ok ⟨"ServiceError", some "boom", none⟩ ∧
    wait_for_completion (fun _ => .ok ⟨"InProgress", none, none⟩) 25 =
      .error (.timeout 25) := by
  constructor
  · exact (wait_for_completion_spec
      (fun k => if k < 2 then .ok ⟨"InProgress", none, none⟩
        else .ok ⟨"ServiceError", some "boom", none⟩) 300).1
      2 ⟨"ServiceError", some "boom", none⟩ (by omega) rfl (by decide)
      (fun j hj => ⟨⟨"InProgress", none, none⟩, by interval_cases j <;> exact ⟨rfl, rfl⟩⟩)
  · exact ((wait_for_completion_spec (fun _ => .ok ⟨"InProgress", none, none⟩) 25).2
      (fun k _ => ⟨⟨"InProgress", none, none⟩, rfl, rfl⟩)).1

/-- **C10.** The retry wrapper retries only on raised exceptions: when, on
the current attempt `k` (the earlier attempts having raised), the poller
run returns a terminal failed status (`ServiceError` or `ClientError`)
rather than raising, that attempt's cycle returns `(arn, status)`, so the
wrapper returns that job handle and failed status immediately — the trace
holds only the `k` waits of the earlier failed attempts, with no further
retry and no backoff wait after the reported failure. -/
theorem retry_returns_reported_failure
    (submit : Nat → Except PyError String)
    (statusOf : String → Nat → Except PyError StatusResponse)
    (arn : String) (st : StatusResponse) (N k : Nat) (hkN : k < N)
    (hprev : ∀ j, j < k → ∃ e, attempt_cycle submit statusOf j = .error e)
    (hsub : submit k = .ok arn)
    (hwait : wait_for_completion (statusOf arn) = .ok st)
    (_hfail : st.status = "ServiceError" ∨ st.status = "ClientError") :
    process_with_retry (attempt_cycle submit statusOf) N =
      (some (.ok (arn, st)), (List.range k).map fun j => 2 ^ j) := by
  have hcycle : attempt_cycle submit statusOf k = .ok (arn, st) := by
    simp [attempt_cycle, hsub, hwait]
  have := process_with_retry_from_ok (attempt_cycle submit statusOf) k 0 N hkN
    (fun j hj => by simpa using hprev j hj) (arn, st) (by simpa using hcycle)
  simpa [process_with_retry] using this

/-- Witness for C10: a job that polls `InProgress` once and then reports
`ClientError` has that failed status returned as the first attempt's
result, with zero waits, even with three attempts allowed. -/
theorem retry_returns_reported_failure_witness :
    process_with_retry
      (attempt_cycle (fun _ => .ok "arn:job")
        (fun _ k => if k = 0 then .ok ⟨"InProgress", none, none⟩
          else .ok ⟨"ClientError", some "bad input", none⟩)) 3 =
      (some (.ok ("arn:job", ⟨"ClientError", some "bad input", none⟩)), []) := by
  have := retry_returns_reported_failure (fun _ => .ok "arn:job")
    (fun _ k => if k = 0 then .ok ⟨"InProgress", none, none⟩
      else .ok ⟨"ClientError", some "bad input", none⟩)
    "arn:job" ⟨"ClientError", some "bad input", none⟩ 3 0 (by omega)
    (fun j hj => by omega) rfl
    (wait_from_of_first_terminal _ 300 1 _ (by omega) rfl (by decide) 0 (by omega)
      (fun j hj1 hj2 => ⟨⟨"InProgress", none, none⟩, by interval_cases j; exact ⟨rfl, rfl⟩⟩))
    (Or.inr rfl)
  simpa using this

/-! ## Helper lemmas about per-record processing -/

/-- A record whose first submission returns a handle whose polling returns a
status contributes a success entry. -/
theorem process_record_ok (submit : String → String → Nat → Except PyError String)
    (statusOf : String → Nat → Except PyError StatusResponse)
    (r : S3Record) (arn : String) (st : StatusResponse)
    (hk : pyStartsWith r.key "input/" = true)
    (hsub : submit (input_s3_uri r.bucket r.key) (output_s3_uri r.bucket r.key) 0 = .ok arn)
    (hwait : wait_for_completion (statusOf arn) = .ok st) :
    process_record submit statusOf r =
      some (.success r.key (output_key r.key) st.status arn) := by
  have hcycle :
      attempt_cycle (submit (input_s3_uri r.bucket r.key) (output_s3_uri r.bucket r.key))
        statusOf 0 = .ok (arn, st) := by
    simp [attempt_cycle, hsub, hwait]
  have hret := process_with_retry_first_ok _ (arn, st) 3 (by omega) hcycle
  simp [process_record, hk, hret]

/-- A record whose submission raises the same exception on all three
attempts contributes an error entry holding that exception's message. -/
theorem process_record_err (submit : String → String → Nat → Except PyError String)
    (statusOf : String → Nat → Except PyError StatusResponse)
    (r : S3Record) (e : PyError)
    (hk : pyStartsWith r.key "input/" = true)
    (hsub : ∀ att, submit (input_s3_uri r.bucket r.key) (output_s3_uri r.bucket r.key) att
      = .error e) :
    process_record submit statusOf r = some (.failure r.key e.str) := by
  have hcycle : ∀ att,
      attempt_cycle (submit (input_s3_uri r.bucket r.key) (output_s3_uri r.bucket r.key))
        statusOf att = .error e := fun att => by
    simp [attempt_cycle, hsub att]
  have hret := process_with_retry_from_err
    (attempt_cycle (submit (input_s3_uri r.bucket r.key) (output_s3_uri r.bucket r.key))
      statusOf)
    (fun _ => e) 3 0 (by omega) (fun j _ => by simpa using hcycle (0 + j))
  simp [process_record, hk, process_with_retry, hret]

/-- **C4.** One record's failure does not abort the rest of the batch:
with three records under the `input/` prefix where only the second record's
submission raises, the summary has exactly one error entry (input path and
error message) between two success entries (input path, output path, final
status, job handle), in the original record order. -/
theorem batch_isolates_single_failure
    (submit : String → String → Nat → Except PyError String)
    (statusOf : String → Nat → Except PyError StatusResponse)
    (r1 r2 r3 : S3Record) (a1 a3 : String) (st1 st3 : StatusResponse) (e : PyError)
    (hk1 : pyStartsWith r1.key "input/" = true)
    (hk2 : pyStartsWith r2.key "input/" = true)
    (hk3 : pyStartsWith r3.key "input/" = true)
    (hsub1 : submit (input_s3_uri r1.bucket r1.key) (output_s3_uri r1.bucket r1.key) 0 = .ok a1)
    (hwait1 : wait_for_completion (statusOf a1) = .ok st1)
    (hsub2 : ∀ att,
      submit (input_s3_uri r2.bucket r2.key) (output_s3_uri r2.bucket r2.key) att = .error e)
    (hsub3 : submit (input_s3_uri r3.bucket r3.key) (output_s3_uri r3.bucket r3.key) 0 = .ok a3)
    (hwait3 : wait_for_completion (statusOf a3) = .ok st3) :
    lambda_handler submit statusOf [r1, r2, r3] =
      { statusCode := 200, processed_files := 3,
        results := [.success r1.key (output_key r1.key) st1.status a1,
                    .failure r2.key e.str,
                    .success r3.key (output_key r3.key) st3.status a3] } := by
  have h1 := process_record_ok submit statusOf r1 a1 st1 hk1 hsub1 hwait1
  have h2 := process_record_err submit statusOf r2 e hk2 hsub2
  have h3 := process_record_ok submit statusOf r3 a3 st3 hk3 hsub3 hwait3
  simp [lambda_handler, h1, h2, h3]

/-- Witness for C4: three concrete records where the middle submission
always raises. -/
theorem batch_isolates_single_failure_witness :
    lambda_handler
      (fun in_uri _ _ =>
        if in_uri = input_s3_uri "b" "input/r2.pdf" then .error (.exc "boom")
        else .ok ("arn:" ++ in_uri))
      (fun _ _ => .ok ⟨"Success", none, none⟩)
      [⟨"b", "input/r1.pdf"⟩, ⟨"b", "input/r2.pdf"⟩, ⟨"b", "input/r3.pdf"⟩] =
      { statusCode := 200, processed_files := 3,
        results := [.success "input/r1.pdf" "output/r1/" "Success"
                      ("arn:" ++ input_s3_uri "b" "input/r1.pdf"),
                    .failure "input/r2.pdf" "boom",
                    .success "input/r3.pdf" "output/r3/" "Success"
                      ("arn:" ++ input_s3_uri "b" "input/r3.pdf")] } := by
  have := batch_isolates_single_failure
    (fun in_uri _ _ =>
      if in_uri = input_s3_uri "b" "input/r2.pdf" then .error (.exc "boom")
      else .ok ("arn:" ++ in_uri))
    (fun _ _ => .ok ⟨"Success", none, none⟩)
    ⟨"b", "input/r1.pdf"⟩ ⟨"b", "input/r2.pdf"⟩ ⟨"b", "input/r3.pdf"⟩
    ("arn:" ++ input_s3_uri "b" "input/r1.pdf")
    ("arn:" ++ input_s3_uri "b" "input/r3.pdf")
    ⟨"Success", none, none⟩ ⟨"Success", none, none⟩ (.exc "boom")
    (by decide) (by decide) (by decide)
    (by decide)
    (wait_from_ok_terminal _ 300 0 _ (by omega) rfl (by decide))
    (fun _ => if_pos rfl)
    (by decide)
    (wait_from_ok_terminal _ 300 0 _ (by omega) rfl (by decide))
  exact this.trans (by decide)

/-- **C5 counterexample.** A batch in which every record errors still gets
the normal `statusCode: 200` summary response: the handler's `except` block
captures each failure and `lambda_handler` returns normally, so the
invocation is never turned into a total failure. -/
theorem all_records_error_still_success_response :
    lambda_handler (fun _ _ _ => .error (.exc "boom")) (fun _ _ => .error (.exc "unused"))
      [⟨"b", "input/a.pdf"⟩, ⟨"b", "input/c.pdf"⟩] =
      { statusCode := 200, processed_files := 2,
        results := [.failure "input/a.pdf" "boom", .failure "input/c.pdf" "boom"] } := by
  decide

/-- **C5 (amended).** Per-record failures are captured into the returned
summary rather than raised; even when every record in the batch errors, the
invocation still returns the normal `statusCode: 200` summary (listing one
error entry per record) rather than being treated as a total failure. -/
theorem handler_never_fails_invocation
    (submit : String → String → Nat → Except PyError String)
    (statusOf : String → Nat → Except PyError StatusResponse)
    (records : List S3Record) (errOf : S3Record → PyError)
    (hall : ∀ r ∈ records, pyStartsWith r.key "input/" = true ∧
      ∀ att, submit (input_s3_uri r.bucket r.key) (output_s3_uri r.bucket r.key) att
        = .error (errOf r)) :
    lambda_handler submit statusOf records =
      { statusCode := 200, processed_files := records.length,
        results := records.map fun r => .failure r.key (errOf r).str } := by
  have key : ∀ recs : List S3Record,
      (∀ r ∈ recs, pyStartsWith r.key "input/" = true ∧
        ∀ att, submit (input_s3_uri r.bucket r.key) (output_s3_uri r.bucket r.key) att
          = .error (errOf r)) →
      recs.filterMap (process_record submit statusOf) =
        recs.map fun r => .failure r.key (errOf r).str := by
    intro recs h
    induction recs with
    | nil => rfl
    | cons r rs ih =>
      obtain ⟨hk, hsub⟩ := h r (List.mem_cons_self r rs)
      rw [List.filterMap_cons, process_record_err submit statusOf r (errOf r) hk hsub,
        List.map_cons, ih fun x hx => h x (List.mem_cons_of_mem r hx)]
  simp [lambda_handler, key records hall]

/-- Witness for the amended C5: two records, both of which error on every
attempt, still produce the 200 summary with two error entries. -/
theorem handler_never_fails_invocation_witness :
    lambda_handler (fun _ _ _ => .error (.exc "down")) (fun _ _ => .error (.exc "unused"))
      [⟨"b", "input/a.pdf"⟩, ⟨"b", "input/c.pdf"⟩] =
      { statusCode := 200, processed_files := 2,
        results := [.failure "input/a.pdf" "down", .failure "input/c.pdf" "down"] } := by
  have := handler_never_fails_invocation (fun _ _ _ => .error (.exc "down"))
    (fun _ _ => .error (.exc "unused"))
    [⟨"b", "input/a.pdf"⟩, ⟨"b", "input/c.pdf"⟩] (fun _ => .exc "down")
    (fun r _ => ⟨by revert r; decide, fun _ => rfl⟩)
  exact this.trans (by decide)

/-! ## Stage promotion (promote_blueprint.py) -/

/-- **C6.** Promotion is an idempotent no-op at the target stage: when the
fetched blueprint's stage field already equals `LIVE`, `promote_to_live`
issues zero `update_blueprint` calls and returns normally (process exit
code 0). -/
theorem promote_noop_at_live (fetch : Except String BlueprintInfo)
    (update : UpdateCall → Except String Unit) (blueprint_arn : String)
    (bp : BlueprintInfo)
    (hfetch : fetch = .ok bp) (hstage : bp.blueprintStage = some "LIVE") :
    promote_to_live fetch update blueprint_arn = (0, []) := by
  subst hfetch
  simp [promote_to_live, hstage]

/-- Witness for C6: a blueprint already at `LIVE` is left untouched. -/
theorem promote_noop_at_live_witness :
    promote_to_live (.ok ⟨some "LIVE", some "{ sch }"⟩)
      (fun _ => .ok ()) "arn:bp" = (0, []) :=
  promote_noop_at_live (.ok ⟨some "LIVE", some "{ sch }"⟩) (fun _ => .ok ())
    "arn:bp" ⟨some "LIVE", some "{ sch }"⟩ rfl rfl

/-- **C7.** Promoting a blueprint whose fetched stage differs from `LIVE`
issues exactly one mutating `update_blueprint` call, whose stage field is
`LIVE` and whose schema is byte-for-byte the schema returned by the fetch —
and nothing else is sent in the call (an `UpdateCall` holds exactly the
three arguments passed). -/
theorem promote_single_mutating_call (fetch : Except String BlueprintInfo)
    (update : UpdateCall → Except String Unit) (blueprint_arn : String)
    (bp : BlueprintInfo) (sch : String)
    (hfetch : fetch = .ok bp)
    (hstage : bp.blueprintStage.getD "DEVELOPMENT" ≠ "LIVE")
    (hschema : bp.schema = some sch) :
    (promote_to_live fetch update blueprint_arn).2 =
      [{ blueprintArn := blueprint_arn, blueprintStage := "LIVE", schema := sch }] := by
  subst hfetch
  simp only [promote_to_live, hstage, if_neg, ite_false, hschema]
  cases update { blueprintArn := blueprint_arn, blueprintStage := "LIVE", schema := sch } <;>
    rfl

/-- Witness for C7: a `DEVELOPMENT`-stage blueprint is reissued once, at
stage `LIVE`, with the fetched schema verbatim. -/
theorem promote_single_mutating_call_witness :
    (promote_to_live (.ok ⟨some "DEVELOPMENT", some "{ sch }"⟩)
      (fun _ => .ok ()) "arn:bp").2 =
      [{ blueprintArn := "arn:bp", blueprintStage := "LIVE", schema := "{ sch }" }] :=
  promote_single_mutating_call (.ok ⟨some "DEVELOPMENT", some "{ sch }"⟩)
    (fun _ => .ok ()) "arn:bp" ⟨some "DEVELOPMENT", some "{ sch }"⟩ "{ sch }"
    rfl (by decide) rfl

/-! ## Output-path derivation and result-location rewrite -/

/-- **C8.** Output location derivation is deterministic from the input key:
the key `input/resume1.pdf` yields the output prefix `output/resume1/`, and
the submitted output location is `output/resume1/job_metadata.json` in the
same bucket. -/
theorem output_path_derivation (bucket : String) :
    output_key "input/resume1.pdf" = "output/resume1/" ∧
    output_s3_uri bucket "input/resume1.pdf" =
      "s3://" ++ bucket ++ "/" ++ "output/resume1/job_metadata.json" := by
  refine ⟨by decide, ?_⟩
  simp only [output_s3_uri, show output_key "input/resume1.pdf" = "output/resume1/"
    by decide]
  apply String.ext
  simp only [String.data_append, List.append_assoc]
  simp only [show "output/resume1/".data ++ "job_metadata.json".data =
    "output/resume1/job_metadata.json".data by decide]

/-- Crossing a non-matching head character: one step of `pyReplaceL`. -/
theorem pyReplaceL_cons_no_match (pat rep : List Char) (c : Char) (rest : List Char)
    (h : pat.isPrefixOf (c :: rest) = false) :
    pyReplaceL pat rep (c :: rest) = c :: pyReplaceL pat rep rest := by
  rw [pyReplaceL]
  simp [h]

/-- If the pattern occurs in `p ++ pat` only as its final suffix, the
left-to-right replacement rewrites exactly that suffix, leaving the prefix
`p` unchanged. -/
theorem pyReplaceL_of_suffix_only (pat rep : List Char) (hpat : pat ≠ []) :
    ∀ p : List Char,
      (∀ i, i < p.length → pat.isPrefixOf ((p ++ pat).drop i) = false) →
      pyReplaceL pat rep (p ++ pat) = p ++ rep := by
  intro p
  induction p with
  | nil =>
    intro _
    obtain ⟨c, pt, rfl⟩ : ∃ c pt, pat = c :: pt := by
      cases pat with
      | nil => exact absurd rfl hpat
      | cons c pt => exact ⟨c, pt, rfl⟩
    rw [List.nil_append, pyReplaceL]
    rw [if_pos ⟨hpat, List.isPrefixOf_iff_prefix.mpr (List.prefix_refl _)⟩]
    simp [pyReplaceL]
  | cons c p' ih =>
    intro hocc
    have h0 : pat.isPrefixOf (c :: (p' ++ pat)) = false := by
      have := hocc 0 (by simp)
      simpa using this
    rw [List.cons_append, pyReplaceL_cons_no_match pat rep c (p' ++ pat) h0,
      ih fun i hi => by simpa using hocc (i + 1) (by simpa using hi)]
    rfl

/-- **C9.** For every status output location of the form
`p ++ "job_metadata.json"` in which `job_metadata.json` occurs only as that
final component, `download_results` derives the result-file location by
replacing the suffix with `0/custom_output/0/result.json`, leaving the
preceding prefix `p` unchanged. -/
theorem result_location_rewrite (p : String)
    (hocc : ∀ i, i < p.data.length →
      ("job_metadata.json".data).isPrefixOf
        ((p.data ++ "job_metadata.json".data).drop i) = false) :
    result_s3_uri (p ++ "job_metadata.json") = p ++ "0/custom_output/0/result.json" := by
  unfold result_s3_uri pyReplace
  rw [if_neg (by decide)]
  apply String.ext
  simp only [String.data_append]
  exact pyReplaceL_of_suffix_only "job_metadata.json".data
    "0/custom_output/0/result.json".data (by decide) p.data hocc

/-- Witness for C9: the output location submitted for `input/resume1.pdf`
rewrites to the standard-output result file under the same prefix. -/
theorem result_location_rewrite_witness :
    result_s3_uri ("s3://b/output/resume1/" ++ "job_metadata.json") =
      "s3://b/output/resume1/" ++ "0/custom_output/0/result.json" :=
  result_location_rewrite "s3://b/output/resume1/" (by decide)

end BDA
